import Mathlib

/-!
Verification development for the First-Search-AI single-page chat front-end.

The two source files are `src/components/Sidebar.tsx` (credential handling,
model listing, and the model-card markdown extractor `parseModelCard`) and
`src/pages/ChatPage.tsx` (the task dispatcher `handleSendMessage`, the six
task handlers, and the shared error helpers).

Strings are embedded as `List Char` (JavaScript string indices are code
units; all literals relevant to the claims are ASCII, where the two agree).
Each definition mirrors one function or code path of the source; comments
on the definitions point to the corresponding source lines.
-/

namespace FirstSearchAI

/-- Convert a string literal to the `List Char` representation. -/
def str (s : String) : List Char := s.toList

/-- JavaScript whitespace test for the ASCII range (space, tab, LF, CR, VT, FF),
used by `String.prototype.trim` and the regex class `\s`. -/
def isWS (c : Char) : Bool :=
  c == ' ' || c == '\t' || c == '\n' || c == '\r' || c == '\x0b' || c == '\x0c'

/-- `String.prototype.trim`: drop whitespace from both ends. -/
def jsTrim (s : List Char) : List Char :=
  ((s.dropWhile isWS).reverse.dropWhile isWS).reverse

/-- `strStarts pat s` is `String.prototype.startsWith`: `pat` is an initial
segment of `s`. -/
def strStarts : List Char → List Char → Bool
  | [], _ => true
  | _ :: _, [] => false
  | a :: as, b :: bs => a == b && strStarts as bs

/-- `containsSub s pat` is `String.prototype.includes`: `pat` occurs as a
contiguous substring of `s`. -/
def containsSub (s pat : List Char) : Bool :=
  match s with
  | [] => strStarts pat []
  | _ :: t => strStarts pat s || containsSub t pat

/-- `findIdx s pat` is `String.prototype.indexOf(pat)`: index of the first
occurrence of `pat` in `s`, if any. -/
def findIdx : List Char → List Char → Option Nat
  | [], pat => if strStarts pat [] then some 0 else none
  | c :: t, pat => if strStarts pat (c :: t) then some 0 else (findIdx t pat).map (· + 1)

/-- Index of the first occurrence of the character `c` in `s`. -/
def charIdx : List Char → Char → Option Nat
  | [], _ => none
  | a :: t, c => if a == c then some 0 else (charIdx t c).map (· + 1)

/-- Length of the maximal run of the character `c` at the head of the list. -/
def runLen (c : Char) : List Char → Nat
  | [] => 0
  | a :: t => if a == c then runLen c t + 1 else 0

/-- Length of the maximal whitespace run at the head of the list (regex `\s*`). -/
def wsRun : List Char → Nat
  | [] => 0
  | c :: t => if isWS c then wsRun t + 1 else 0

/-- `String.prototype.split("\n")`. -/
def splitNl : List Char → List (List Char)
  | [] => [[]]
  | c :: t =>
    if c == '\n' then [] :: splitNl t
    else
      match splitNl t with
      | [] => [[c]]
      | l :: ls => (c :: l) :: ls

/-- `Array.prototype.join("\n")`. -/
def joinNl : List (List Char) → List Char
  | [] => []
  | [l] => l
  | l :: ls => l ++ '\n' :: joinNl ls

/-! ### Model Card Extractor (`parseModelCard`, Sidebar.tsx lines 158-252) -/

/-- Result record of the extractor.  The source also carries a `sections`
field that is initialised to `[]` and never written; it is omitted. -/
structure ModelCardData where
  fullDescription : List Char
  usage : Option (List Char)
  limitations : Option (List Char)
  trainingData : Option (List Char)
deriving Repr, DecidableEq

/-- Front-matter stripping (Sidebar.tsx lines 165-171):
`if (content.startsWith("---")) { const e = content.indexOf("\n---", 3);
 if (e !== -1) content = content.substring(e + 4); }`.
`indexOf(pat, 3)` is the first occurrence at index `≥ 3`, i.e. `3 + i` where
`i` is the first occurrence in `content.drop 3`; `substring(e + 4)` is then
`drop (i + 7)`. -/
def stripFrontmatter (content : List Char) : List Char :=
  if strStarts (str "---") content then
    match findIdx (content.drop 3) (str "\n---") with
    | some i => content.drop (i + 7)
    | none => content
  else content

/-- Length of the match of `/<div[^>]*>.*?<\/div>/s` at a position starting
with `"<div"`: greedy `[^>]*` runs to the first `>`, lazy `.*?` to the first
`"</div>"` after it. -/
def divMatchLen (s : List Char) : Option Nat :=
  match charIdx (s.drop 4) '>' with
  | none => none
  | some j =>
    match findIdx (s.drop (5 + j)) (str "</div>") with
    | none => none
    | some k => some (5 + j + k + 6)

/-- Length of the match of `/<[^>]+>/` at a position starting with `<`:
at least one non-`>` character, then `>`. -/
def tagMatchLen (s : List Char) : Option Nat :=
  match charIdx (s.drop 1) '>' with
  | none => none
  | some j => if j == 0 then none else some (j + 2)

/-- Length of the match of `/!\[[^\]]*\]\([^)]+\)/` at a position starting
with `"!["`. -/
def imageMatchLen (s : List Char) : Option Nat :=
  match charIdx (s.drop 2) ']' with
  | none => none
  | some j =>
    if strStarts (str "(") (s.drop (3 + j)) then
      match charIdx (s.drop (4 + j)) ')' with
      | none => none
      | some k => if k == 0 then none else some (5 + j + k)
    else none

/-- Length of the match of `/\[[^\]]*\]\([^)]+\)/` at a position starting
with `[`. -/
def linkMatchLen (s : List Char) : Option Nat :=
  match charIdx (s.drop 1) ']' with
  | none => none
  | some j =>
    if strStarts (str "(") (s.drop (2 + j)) then
      match charIdx (s.drop (3 + j)) ')' with
      | none => none
      | some k => if k == 0 then none else some (4 + j + k)
    else none

/-- Global replacement of `<div...>...</div>` blocks by `""`
(`.replace(/<div[^>]*>.*?<\/div>/gs, "")`).  The fuel argument bounds the
scan; every step consumes at least one character, so `s.length` suffices. -/
def removeDivsGo : Nat → List Char → List Char
  | 0, s => s
  | _ + 1, [] => []
  | fuel + 1, c :: t =>
    if strStarts (str "<div") (c :: t) then
      match divMatchLen (c :: t) with
      | some n => removeDivsGo fuel ((c :: t).drop n)
      | none => c :: removeDivsGo fuel t
    else c :: removeDivsGo fuel t

def removeDivs (s : List Char) : List Char := removeDivsGo s.length s

/-- `.replace(/<[^>]+>/g, "")`. -/
def removeTagsGo : Nat → List Char → List Char
  | 0, s => s
  | _ + 1, [] => []
  | fuel + 1, c :: t =>
    if c == '<' then
      match tagMatchLen (c :: t) with
      | some n => removeTagsGo fuel ((c :: t).drop n)
      | none => c :: removeTagsGo fuel t
    else c :: removeTagsGo fuel t

def removeTags (s : List Char) : List Char := removeTagsGo s.length s

/-- `.replace(/!\[[^\]]*\]\([^)]+\)/g, "")`. -/
def removeImagesGo : Nat → List Char → List Char
  | 0, s => s
  | _ + 1, [] => []
  | fuel + 1, c :: t =>
    if strStarts (str "![") (c :: t) then
      match imageMatchLen (c :: t) with
      | some n => removeImagesGo fuel ((c :: t).drop n)
      | none => c :: removeImagesGo fuel t
    else c :: removeImagesGo fuel t

def removeImages (s : List Char) : List Char := removeImagesGo s.length s

/-- `.replace(/\[[^\]]*\]\([^)]+\)/g, "")`. -/
def removeLinksGo : Nat → List Char → List Char
  | 0, s => s
  | _ + 1, [] => []
  | fuel + 1, c :: t =>
    if c == '[' then
      match linkMatchLen (c :: t) with
      | some n => removeLinksGo fuel ((c :: t).drop n)
      | none => c :: removeLinksGo fuel t
    else c :: removeLinksGo fuel t

def removeLinks (s : List Char) : List Char := removeLinksGo s.length s

/-- `.replace("---+" regex, "")`: maximal runs of three or more dashes removed. -/
def removeDashesGo : Nat → List Char → List Char
  | 0, s => s
  | _ + 1, [] => []
  | fuel + 1, c :: t =>
    if c == '-' then
      if 3 ≤ runLen '-' (c :: t) then removeDashesGo fuel ((c :: t).drop (runLen '-' (c :: t)))
      else c :: removeDashesGo fuel t
    else c :: removeDashesGo fuel t

def removeDashes (s : List Char) : List Char := removeDashesGo s.length s

/-- `.replace(/\n{3,}/g, "\n\n")`: maximal runs of three or more newlines
collapsed to two. -/
def collapseNlGo : Nat → List Char → List Char
  | 0, s => s
  | _ + 1, [] => []
  | fuel + 1, c :: t =>
    if c == '\n' then
      if 3 ≤ runLen '\n' (c :: t) then
        '\n' :: '\n' :: collapseNlGo fuel ((c :: t).drop (runLen '\n' (c :: t)))
      else c :: collapseNlGo fuel t
    else c :: collapseNlGo fuel t

def collapseNl (s : List Char) : List Char := collapseNlGo s.length s

/-- The "clean" fallback text (Sidebar.tsx lines 174-181): strip div blocks,
remaining tags, markdown images, markdown links, dash runs, collapse newline
runs, and trim. -/
def cleanDescriptionOf (content : List Char) : List Char :=
  jsTrim (collapseNl (removeDashes (removeLinks (removeImages (removeTags (removeDivs content))))))

/-- The description-accumulating loop over lines (Sidebar.tsx lines 188-214).
A leading `#`/`##` heading only breaks the loop once at least one line has
been accumulated; blank lines are skipped only before the first accumulated
line; badge-looking lines are always skipped. -/
def scanDescription : List (List Char) → List (List Char) → List (List Char)
  | [], acc => acc
  | line :: rest, acc =>
    if (strStarts (str "# ") line || strStarts (str "## ") line) && !acc.isEmpty then acc
    else if jsTrim line == [] && acc.isEmpty then scanDescription rest acc
    else if containsSub line (str "badge") || containsSub line (str "shields.io") ||
        containsSub line (str "<img") then scanDescription rest acc
    else scanDescription rest (acc ++ [line])

/-- Case-insensitive `strStarts` (regex `i` flag). -/
def ciStarts : List Char → List Char → Bool
  | [], _ => true
  | _ :: _, [] => false
  | a :: as, b :: bs => a.toLower == b.toLower && ciStarts as bs

/-- Match of `##\s+<kw>` (case-insensitive) at the head of `s`, returning the
matched length.  All keywords begin with a letter, so the greedy `\s+` can
only succeed by consuming the whole whitespace run. -/
def matchHeading (s kw : List Char) : Option Nat :=
  if strStarts (str "##") s then
    let w := wsRun (s.drop 2)
    if w == 0 then none
    else if ciStarts kw (s.drop (2 + w)) then some (2 + w + kw.length) else none
  else none

/-- Try the regex alternatives in order at one position. -/
def tryAlts (s : List Char) : List (List Char) → Option Nat
  | [] => none
  | kw :: rest =>
    match matchHeading s kw with
    | some n => some n
    | none => tryAlts s rest

/-- Leftmost match of `(?:##\s+kw1|##\s+kw2|...)`; returns the text right
after the matched heading. -/
def findSection : List Char → List (List Char) → Option (List Char)
  | [], _ => none
  | c :: t, kws =>
    match tryAlts (c :: t) kws with
    | some n => some ((c :: t).drop n)
    | none => findSection t kws

/-- The lookahead `(?=##\s+|$)`. -/
def h2Lookahead (s : List Char) : Bool :=
  strStarts (str "##") s && !(wsRun (s.drop 2) == 0)

/-- The lazy capture `([\s\S]*?)` up to the lookahead or end of text. -/
def captureUntilH2 : List Char → List Char
  | [] => []
  | c :: t => if h2Lookahead (c :: t) then [] else c :: captureUntilH2 t

/-- One section-extraction match (Sidebar.tsx lines 228-249): the field is
set to the trimmed capture only when the capture is a non-empty string
(`if (m && m[1])`). -/
def extractSection (content : List Char) (kws : List (List Char)) : Option (List Char) :=
  match findSection content kws with
  | none => none
  | some r =>
    let cap := captureUntilH2 r
    if cap.isEmpty then none else some (jsTrim cap)

def usageKws : List (List Char) := [str "Usage", str "How to Use", str "Examples"]

def limitationsKws : List (List Char) :=
  [str "Limitations", str "Limitations and Bias", str "Bias"]

def trainingKws : List (List Char) := [str "Training", str "Training Data", str "Model Details"]

/-- The body of `parseModelCard` after the front matter has been removed. -/
def parseBody (content : List Char) : ModelCardData :=
  let clean := cleanDescriptionOf content
  let scanned := scanDescription (splitNl content) []
  let fd0 := jsTrim (joinNl (scanned.filter
    (fun l => !(containsSub l (str "![")) && !(containsSub l (str "<")))))
  let fd := if fd0.length < 50 then clean.take 1000 else fd0
  { fullDescription := fd
    usage := extractSection content usageKws
    limitations := extractSection content limitationsKws
    trainingData := extractSection content trainingKws }

/-- `parseModelCard` (Sidebar.tsx lines 158-252). -/
def parseModelCard (markdownText : List Char) : ModelCardData :=
  parseBody (stripFrontmatter markdownText)

/-! ### Transcript and task dispatcher (ChatPage.tsx) -/

/-- One transcript entry (the `Message` interface, ChatPage.tsx lines 16-25).
The result payloads (image/audio/classification data) are not needed by the
claims about identifiers and error text and are omitted. -/
structure Message where
  id : Nat
  text : List Char
  isUser : Bool
deriving Repr, DecidableEq

/-- The network endpoints a dispatch can invoke through the inference client
or `fetch`. -/
inductive NetworkCall where
  | chatCompletionStream
  | textToImage
  | textClassification
  | summarization
  | imageClassification
  | textToSpeech
  | whoami
  | listModels
  | fetchModelInfo
deriving Repr, DecidableEq

/-- The props and component state a submission reads (ChatPage.tsx lines
48-65): verification flag, selected model id, selected pipeline tag, the
text-box content, and whether an image has been selected. -/
structure DispatchInput where
  isVerified : Bool
  selectedModel : Option (List Char)
  selectedPipeline : Option (List Char)
  inputMessage : List Char
  selectedImage : Bool
deriving Repr, DecidableEq

def welcomeText : List Char :=
  str "Hello! Welcome to First Search AI Assistant. How can I assist you today?"

def selectImageText : List Char := str "Please select an image for classification."

def unsupportedText : List Char :=
  str "Currently only text generation, text-to-image, text-classification, image-classification, text-to-speech and summarization models are working. We will add support for other pipelines in upcoming versions."

def imageUploadedText : List Char := str "Image uploaded for classification"

def analyzingImageText : List Char := str "Analyzing image..."

def genericErrorText : List Char :=
  str "Sorry, I encountered an error while processing your request. Please try again."

def imageErrorText : List Char :=
  str "Sorry, I encountered an error while analyzing the image. Please try again."

def creditsExceededText : List Char :=
  str "You have exceeded your monthly Hugging Face credits. Please upgrade to PRO or wait until your credits reset."

/-- The template `x.substring(0, 100)` followed by `"..."` when `x` is longer
than 100 characters. -/
def truncate100 (t : List Char) : List Char :=
  t.take 100 ++ (if 100 < t.length then str "..." else [])

def ttsLoadingText (t : List Char) : List Char :=
  str "Generating speech for: \"" ++ truncate100 t ++ str "\"..."

def imageGenLoadingText (p : List Char) : List Char :=
  str "Generating image for: \"" ++ p ++ str "\"..."

def classifyLoadingText (t : List Char) : List Char :=
  str "Analyzing text classification for: \"" ++ t ++ str "\"..."

def summarizeLoadingText (t : List Char) : List Char :=
  str "Summarizing text: \"" ++ truncate100 t ++ str "\"..."

/-- The six pipeline tags accepted by the dispatcher (ChatPage.tsx lines
126-133 check the selected pipeline against exactly these). -/
def isSupportedPipeline (p : List Char) : Bool :=
  decide (p = str "text-generation") || decide (p = str "text-to-image") ||
  decide (p = str "text-classification") || decide (p = str "summarization") ||
  decide (p = str "image-classification") || decide (p = str "text-to-speech")

def pipelineSupported : Option (List Char) → Bool
  | none => false
  | some p => isSupportedPipeline p

/-- The synchronous placeholder appended and the network call issued by the
per-task handler selected for a supported non-image pipeline (ChatPage.tsx
lines 158-168 dispatch; lines 179-464 the handlers).  Each handler computes
the placeholder id as `messages.length + 2` from the transcript captured
before the user entry was appended. -/
def runHandler (msgs : List Message) (p : List Char) (input : List Char) :
    List Message × List NetworkCall :=
  if p = str "text-generation" then
    ([⟨msgs.length + 2, [], false⟩], [NetworkCall.chatCompletionStream])
  else if p = str "text-to-image" then
    ([⟨msgs.length + 2, imageGenLoadingText input, false⟩], [NetworkCall.textToImage])
  else if p = str "text-classification" then
    ([⟨msgs.length + 2, classifyLoadingText input, false⟩], [NetworkCall.textClassification])
  else if p = str "summarization" then
    ([⟨msgs.length + 2, summarizeLoadingText input, false⟩], [NetworkCall.summarization])
  else if p = str "text-to-speech" then
    ([⟨msgs.length + 2, ttsLoadingText input, false⟩], [NetworkCall.textToSpeech])
  else ([], [])

/-- `handleSendMessage` (ChatPage.tsx lines 97-177), up to the first network
call: the entries appended to the transcript during the synchronous part of
one dispatch, and the network calls issued.  All identifiers are computed
from `msgs`, the transcript captured at dispatch time, exactly as the
closure-captured `messages` array is in the source.  The `none` pipeline
case is a no-op through the guard on line 117-123. -/
def handleSendMessage (msgs : List Message) (inp : DispatchInput) :
    List Message × List NetworkCall :=
  if inp.selectedPipeline = some (str "image-classification") then
    if inp.selectedImage = false then
      ([⟨msgs.length + 1, selectImageText, false⟩], [])
    else if inp.isVerified = false ∨ inp.selectedModel = none then ([], [])
    else
      ([⟨msgs.length + 1, imageUploadedText, true⟩, ⟨msgs.length + 2, analyzingImageText, false⟩],
        [NetworkCall.imageClassification])
  else
    match inp.selectedPipeline with
    | none => ([], [])
    | some p =>
      if jsTrim inp.inputMessage = [] ∨ inp.isVerified = false ∨ inp.selectedModel = none then
        ([], [])
      else if isSupportedPipeline p = false then
        ([⟨msgs.length + 2, unsupportedText, false⟩], [])
      else
        (⟨msgs.length + 1, inp.inputMessage, true⟩ :: (runHandler msgs p inp.inputMessage).1,
          (runHandler msgs p inp.inputMessage).2)

/-! ### Error helpers (ChatPage.tsx lines 550-633) -/

/-- `isCreditLimitError` (ChatPage.tsx lines 628-633). -/
def isCreditLimitError (m : List Char) : Bool :=
  containsSub m (str "exceeded your monthly included credits") ||
  containsSub m (str "Subscribe to PRO")

/-- `errorMessageString.split("\n")[0] || errorMessageString` (ChatPage.tsx
line 605): the first line, or the whole message when the first line is the
empty string. -/
def jsFirstLine (m : List Char) : List Char :=
  match splitNl m with
  | [] => m
  | h :: _ => if h.isEmpty then m else h

/-- The replacement text computed by `handlePipelineError` (ChatPage.tsx
lines 588-616): the credits message when the credit signature matches,
else the text-to-speech template when the message mentions speech, else the
generic per-action message. -/
def pipelineErrorText (m action : List Char) : List Char :=
  if isCreditLimitError m then creditsExceededText
  else if containsSub m (str "text-to-speech") || containsSub m (str "speech") then
    str "Text-to-speech error: " ++ truncate100 (jsFirstLine m)
  else str "Sorry, I encountered an error while " ++ action ++ str ". Please try again."

/-- The in-place mutation of the placeholder entry done by
`handlePipelineError` (ChatPage.tsx lines 611-615). -/
def handlePipelineError (msgs : List Message) (m : List Char) (messageId : Nat)
    (action : List Char) : List Message :=
  msgs.map (fun msg => if msg.id = messageId then { msg with text := pipelineErrorText m action } else msg)

/-- The replacement text computed by `handleStreamingError` (ChatPage.tsx
lines 565-586). -/
def streamingErrorText (m : List Char) : List Char :=
  if isCreditLimitError m then creditsExceededText else genericErrorText

/-- The replacement text computed in the `handleImageClassification` catch
block (ChatPage.tsx lines 276-292). -/
def imageClassifyErrorText (m : List Char) : List Char :=
  if isCreditLimitError m then creditsExceededText else imageErrorText

/-! ### Model listing and credential state (Sidebar.tsx) -/

/-- A catalog entry as pushed by `fetchHuggingFaceModels` (Sidebar.tsx lines
409-413). -/
structure CatalogEntry where
  id : List Char
  name : List Char
  pipeline_tag : Option (List Char)
deriving Repr, DecidableEq

/-- One element of the model-listing response: `{id, modelId?,
pipeline_tag?}` (Sidebar.tsx line 403 reads these fields). -/
structure RawModel where
  id : List Char
  modelId : Option (List Char)
  pipeline_tag : Option (List Char)
deriving Repr, DecidableEq

/-- JavaScript `a || b` on an optional string: `b` when `a` is absent or
empty (falsy). -/
def jsOrStr (a : Option (List Char)) (b : List Char) : List Char :=
  match a with
  | some s => if s.isEmpty then b else s
  | none => b

/-- Append an entry to the group of `tag`, creating the group at the end on
first use — the insertion-order semantics of a JS object keyed by tag. -/
def pushGroup (groups : List (List Char × List CatalogEntry)) (tag : List Char)
    (e : CatalogEntry) : List (List Char × List CatalogEntry) :=
  match groups with
  | [] => [(tag, [e])]
  | (t, es) :: rest => if t = tag then (t, es ++ [e]) :: rest else (t, es) :: pushGroup rest tag e

/-- The body of the grouping loop of `fetchHuggingFaceModels` (Sidebar.tsx
lines 403-415): an entry with a falsy `pipeline_tag` (absent or empty) is
dropped, the rest pushed into their tag's group. -/
def organizeStep (acc : List (List Char × List CatalogEntry)) (m : RawModel) :
    List (List Char × List CatalogEntry) :=
  match m.pipeline_tag with
  | none => acc
  | some tag =>
    if tag.isEmpty then acc
    else pushGroup acc tag ⟨m.id, jsOrStr m.modelId m.id, m.pipeline_tag⟩

/-- The grouping loop of `fetchHuggingFaceModels` (Sidebar.tsx lines
401-415): entries with a falsy `pipeline_tag` are dropped, the rest pushed
into their tag's group in response order. -/
def organizeModels (ms : List RawModel) : List (List Char × List CatalogEntry) :=
  ms.foldl organizeStep []

/-- Lookup of one pipeline tag's group in the catalog. -/
def lookupGroup (groups : List (List Char × List CatalogEntry)) (tag : List Char) :
    List CatalogEntry :=
  match groups with
  | [] => []
  | (t, es) :: rest => if t = tag then es else lookupGroup rest tag

/-- The Sidebar state touched by `handleApiKeyChange` (Sidebar.tsx lines
99-111). -/
structure SidebarState where
  apiKey : List Char
  isApiVerified : Bool
  pipelineModels : List (List Char × List CatalogEntry)
  selectedModelInfo : Option (List Char)
  selectedModel : List Char
deriving Repr, DecidableEq

/-- `handleApiKeyChange` (Sidebar.tsx lines 565-575): store the new raw
credential text; when verification had succeeded, reset the verified flag,
the model catalog, the model info and the selected model.  The handler
issues no network call (the returned call list is what the handler itself
initiates). -/
def handleApiKeyChange (st : SidebarState) (newValue : List Char) :
    SidebarState × List NetworkCall :=
  if st.isApiVerified then
    ({ apiKey := newValue, isApiVerified := false, pipelineModels := [],
       selectedModelInfo := none, selectedModel := [] }, [])
  else ({ st with apiKey := newValue }, [])

/-! ### Lemmas about the string primitives -/

theorem strStarts_self_append (p r : List Char) : strStarts p (p ++ r) = true := by
  induction p with
  | nil => rfl
  | cons a as ih => simp [strStarts, ih]

theorem strStarts_ex {p s : List Char} (h : strStarts p s = true) : ∃ u, s = p ++ u := by
  induction p generalizing s with
  | nil => exact ⟨s, rfl⟩
  | cons a as ih =>
    cases s with
    | nil => simp [strStarts] at h
    | cons b bs =>
      simp only [strStarts, Bool.and_eq_true, beq_iff_eq] at h
      obtain ⟨u, hu⟩ := ih h.2
      exact ⟨u, by simp [h.1, hu]⟩

theorem findIdx_first (pat : List Char) :
    ∀ (s : List Char) (i : Nat), strStarts pat (s.drop i) = true →
      (∀ k, k < i → strStarts pat (s.drop k) = false) →
      findIdx s pat = some i := by
  intro s
  induction s with
  | nil =>
    intro i h hmin
    cases i with
    | zero => simp only [List.drop_nil] at h; simp [findIdx, h]
    | succ j =>
      exfalso
      have := hmin 0 (Nat.succ_pos j)
      simp only [List.drop_nil] at h
      simp [List.drop_nil, h] at this
  | cons c t ih =>
    intro i h hmin
    cases i with
    | zero =>
      simp only [List.drop_zero] at h
      simp [findIdx, h]
    | succ j =>
      have h0 : strStarts pat (c :: t) = false := by
        have := hmin 0 (Nat.succ_pos j)
        simpa using this
      have ht : findIdx t pat = some j := by
        apply ih
        · simpa using h
        · intro k hk
          have := hmin (k + 1) (Nat.succ_lt_succ hk)
          simpa using this
      simp [findIdx, h0, ht]

theorem containsSub_false {s pat : List Char} (h : containsSub s pat = false) :
    ∀ k, strStarts pat (s.drop k) = false := by
  induction s with
  | nil =>
    intro k
    simp only [containsSub] at h
    simpa [List.drop_nil] using h
  | cons c t ih =>
    intro k
    simp only [containsSub, Bool.or_eq_false_iff] at h
    cases k with
    | zero => simpa using h.1
    | succ j => simpa using ih h.2 j

/-- When `pat` occurs at position `a.length` of `a ++ (pat ++ r)` and at no
earlier position, `findIdx` (the model of `indexOf`) returns exactly
`a.length`. -/
theorem findIdx_of_no_early (pat a r : List Char)
    (hno : ∀ k, k < a.length → strStarts pat ((a ++ (pat ++ r)).drop k) = false) :
    findIdx (a ++ (pat ++ r)) pat = some a.length := by
  apply findIdx_first
  · rw [List.drop_left]
    exact strStarts_self_append pat r
  · exact hno

/-- A prefix of `l ++ x` no longer than `l` is a prefix of `l`. -/
theorem strStarts_of_append_le {p l x : List Char} (h : strStarts p (l ++ x) = true)
    (hle : p.length ≤ l.length) : strStarts p l = true := by
  induction p generalizing l with
  | nil => rfl
  | cons a as ih =>
    cases l with
    | nil => simp at hle
    | cons b bs =>
      simp only [List.cons_append, strStarts, Bool.and_eq_true] at h ⊢
      exact ⟨h.1, ih h.2 (by simpa using hle)⟩

/-- If the front-matter body (with its leading newline) contains no
`"\n---"`, then `"\n---"` occurs nowhere before the closing delimiter in
`('\n' :: fm) ++ ("\n---" ++ r)`: an occurrence inside `'\n' :: fm` is
excluded by the hypothesis, and an occurrence straddling the boundary is
impossible because the character right after the boundary is a newline
while every non-initial character of the pattern is a dash. -/
theorem no_early_closing (fm r : List Char)
    (h1 : containsSub ('\n' :: fm) (str "\n---") = false) :
    ∀ k, k < ('\n' :: fm).length →
      strStarts (str "\n---") ((('\n' :: fm) ++ (str "\n---" ++ r)).drop k) = false := by
  intro k hk
  by_contra hcon
  have hcon : strStarts (str "\n---") ((('\n' :: fm) ++ (str "\n---" ++ r)).drop k) = true := by
    simpa using hcon
  rw [List.drop_append_eq_append_drop,
    Nat.sub_eq_zero_of_le (Nat.le_of_lt hk), List.drop_zero] at hcon
  by_cases hd : 4 ≤ (('\n' :: fm).drop k).length
  · -- the whole pattern fits inside `('\n' :: fm).drop k`: a real occurrence
    -- inside `'\n' :: fm`, contradicting `h1`
    have hpre : strStarts (str "\n---") (('\n' :: fm).drop k) = true :=
      strStarts_of_append_le hcon (by rw [show (str "\n---").length = 4 from rfl]; exact hd)
    have hfalse := containsSub_false h1 k
    rw [hpre] at hfalse
    simp at hfalse
  · -- the occurrence would straddle the boundary: compare the character at
    -- the boundary index on both sides
    obtain ⟨u, hu⟩ := strStarts_ex hcon
    have hgd := congrArg (fun l => l[(('\n' :: fm).drop k).length]?) hu
    simp only at hgd
    rw [List.getElem?_append_right (Nat.le_refl _), Nat.sub_self] at hgd
    rw [show (str "\n---" ++ r)[0]? = some '\n' from rfl] at hgd
    rw [List.getElem?_append] at hgd
    rw [if_pos (by rw [show (str "\n---").length = 4 from rfl]; omega)] at hgd
    rw [List.length_drop, List.length_cons] at hgd
    rw [List.length_drop, List.length_cons] at hd
    simp only [List.length_cons] at hk
    have hcases : fm.length + 1 - k = 1 ∨ fm.length + 1 - k = 2 ∨ fm.length + 1 - k = 3 := by
      omega
    rcases hcases with hc | hc | hc <;> rw [hc] at hgd <;> exact absurd hgd (by decide)

/-- The front-matter strip (Sidebar.tsx lines 165-171) removes exactly the
opening delimiter line, the front-matter body, and the closing delimiter. -/
theorem frontmatter_stripped (fm rest : List Char)
    (h1 : containsSub ('\n' :: fm) (str "\n---") = false) :
    stripFrontmatter (str "---\n" ++ fm ++ str "\n---" ++ rest) = rest := by
  have e0 : str "---\n" ++ fm ++ str "\n---" ++ rest =
      '-' :: '-' :: '-' :: (('\n' :: fm) ++ (str "\n---" ++ rest)) := by
    rw [show str "---\n" = '-' :: '-' :: '-' :: '\n' :: [] from rfl]
    simp [List.append_assoc]
  rw [e0]
  have hstart : strStarts (str "---")
      ('-' :: '-' :: '-' :: (('\n' :: fm) ++ (str "\n---" ++ rest))) = true := by
    rw [show str "---" = '-' :: '-' :: '-' :: [] from rfl]
    simp [strStarts]
  have hfind : findIdx (('-' :: '-' :: '-' :: (('\n' :: fm) ++ (str "\n---" ++ rest))).drop 3)
      (str "\n---") = some ('\n' :: fm).length := by
    rw [show ('-' :: '-' :: '-' :: (('\n' :: fm) ++ (str "\n---" ++ rest))).drop 3 =
      ('\n' :: fm) ++ (str "\n---" ++ rest) from rfl]
    exact findIdx_of_no_early _ _ _ (no_early_closing fm rest h1)
  rw [stripFrontmatter, if_pos hstart, hfind]
  have e1 : '-' :: '-' :: '-' :: (('\n' :: fm) ++ (str "\n---" ++ rest)) =
      (('-' :: '-' :: '-' :: '\n' :: fm) ++ str "\n---") ++ rest := by
    simp [List.append_assoc]
  rw [e1]
  apply List.drop_left'
  simp only [List.length_append, List.length_cons]
  rw [show (str "\n---").length = 4 from rfl]

/-- Pushing an entry onto a tag's group appends it to that group. -/
theorem lookupGroup_pushGroup_same (acc : List (List Char × List CatalogEntry))
    (tag : List Char) (e : CatalogEntry) :
    lookupGroup (pushGroup acc tag e) tag = lookupGroup acc tag ++ [e] := by
  induction acc with
  | nil => simp [pushGroup, lookupGroup]
  | cons g rest ih =>
    obtain ⟨t', es⟩ := g
    by_cases h : t' = tag
    · subst h
      simp [pushGroup, lookupGroup]
    · simp [pushGroup, lookupGroup, h, ih]

/-- Pushing an entry onto a tag's group leaves every other group unchanged. -/
theorem lookupGroup_pushGroup_ne (acc : List (List Char × List CatalogEntry))
    (tag t : List Char) (e : CatalogEntry) (h : t ≠ tag) :
    lookupGroup (pushGroup acc tag e) t = lookupGroup acc t := by
  induction acc with
  | nil => simp [pushGroup, lookupGroup, Ne.symm h]
  | cons g rest ih =>
    obtain ⟨t', es⟩ := g
    by_cases h2 : t' = tag
    · subst h2
      simp [pushGroup, lookupGroup, Ne.symm h]
    · simp only [pushGroup, if_neg h2, lookupGroup]
      by_cases h3 : t' = t
      · simp [h3]
      · simp [h3, ih]

/-- The grouping loop, run from any accumulator, extends each (non-empty)
tag's group with exactly the response-order entries bearing that tag. -/
theorem lookupGroup_foldl_organizeStep (t : List Char) (ht : t.isEmpty = false) :
    ∀ (ms : List RawModel) (acc : List (List Char × List CatalogEntry)),
      lookupGroup (ms.foldl organizeStep acc) t =
        lookupGroup acc t ++
          (ms.filter (fun m => decide (m.pipeline_tag = some t))).map
            (fun m => CatalogEntry.mk m.id (jsOrStr m.modelId m.id) m.pipeline_tag) := by
  intro ms
  induction ms with
  | nil =>
    intro acc
    simp
  | cons m rest ih =>
    intro acc
    simp only [List.foldl_cons, List.filter_cons]
    rcases hpt : m.pipeline_tag with _ | tag
    · have hstep : organizeStep acc m = acc := by simp [organizeStep, hpt]
      have hne : ¬ (m.pipeline_tag = some t) := by simp [hpt]
      rw [hstep]
      simp [hne, ih]
    · by_cases hte : tag.isEmpty
      · have hstep : organizeStep acc m = acc := by simp [organizeStep, hpt, hte]
        have htagt : ¬ tag = t := by
          intro hc
          rw [hc, ht] at hte
          exact absurd hte (by simp)
        have hne : ¬ (m.pipeline_tag = some t) := by
          rw [hpt]
          intro hc
          exact htagt (Option.some_inj.mp hc)
        rw [hstep]
        simp [hne, ih, htagt]
      · have hstep : organizeStep acc m =
            pushGroup acc tag ⟨m.id, jsOrStr m.modelId m.id, m.pipeline_tag⟩ := by
          simp [organizeStep, hpt, hte]
        rw [hstep]
        by_cases htt : t = tag
        · subst htt
          have hmem : m.pipeline_tag = some t := hpt
          simp [hmem, ih, lookupGroup_pushGroup_same, List.append_assoc]
        · have htagt : ¬ tag = t := fun hc => htt hc.symm
          have hne : ¬ (m.pipeline_tag = some t) := by
            rw [hpt]
            intro hc
            exact htt (Option.some_inj.mp hc).symm
          simp [hne, ih, htagt, lookupGroup_pushGroup_ne _ _ _ _ htt]

/-! ### Theorems about the claims -/

/-- The session transcript at startup (ChatPage.tsx lines 54-61). -/
def c1Msgs0 : List Message := [⟨1, welcomeText, false⟩]

/-- First submission: a selectable but unsupported pipeline tag. -/
def c1InpA : DispatchInput :=
  ⟨true, some (str "gpt2"), some (str "translation"), str "hi", false⟩

/-- Second submission: a supported pipeline tag. -/
def c1InpB : DispatchInput :=
  ⟨true, some (str "gpt2"), some (str "text-generation"), str "hi", false⟩

/-- The transcript after the two sequential submissions. -/
def c1Trace : List Message :=
  let m1 := c1Msgs0 ++ (handleSendMessage c1Msgs0 c1InpA).1
  m1 ++ (handleSendMessage m1 c1InpB).1

/-- C1: transcript identifiers are NOT unique across sequential submissions.
Starting from the initial one-entry transcript, a submission with the
unsupported tag "translation" appends its single explanatory assistant
entry with identifier `length + 2 = 3` (ChatPage.tsx line 135), and the
next submission's user entry then receives the new `length + 1 = 3`: the
resulting identifier sequence is `[1, 3, 3, 4]`, which repeats 3 and is
neither unique nor monotonically increasing.  This contradicts both the
claimed `currentLength + 1` assignment for a lone explanatory entry and the
claimed uniqueness. -/
theorem c1_duplicate_identifier :
    (c1Trace.map Message.id = [1, 3, 3, 4]) ∧ ¬ (c1Trace.map Message.id).Nodup := by
  decide

/-- C2: whenever no verified credential is present, or no model is selected,
or the selected task tag is not one of the six supported values, the
dispatch issues no network call and appends either nothing or exactly one
assistant-authored explanatory entry. -/
theorem c2_dispatcher_guard (msgs : List Message) (inp : DispatchInput)
    (h : inp.isVerified = false ∨ inp.selectedModel = none ∨
      pipelineSupported inp.selectedPipeline = false) :
    (handleSendMessage msgs inp).2 = [] ∧
    ((handleSendMessage msgs inp).1 = [] ∨
      ∃ e, (handleSendMessage msgs inp).1 = [e] ∧ e.isUser = false) := by
  unfold handleSendMessage
  by_cases hic : inp.selectedPipeline = some (str "image-classification")
  · rw [if_pos hic]
    by_cases himg : inp.selectedImage = false
    · rw [if_pos himg]
      exact ⟨rfl, Or.inr ⟨_, rfl, rfl⟩⟩
    · rw [if_neg himg]
      have hvm : inp.isVerified = false ∨ inp.selectedModel = none := by
        rcases h with h | h | h
        · exact Or.inl h
        · exact Or.inr h
        · rw [hic] at h
          simp [pipelineSupported, isSupportedPipeline] at h
      rw [if_pos hvm]
      exact ⟨rfl, Or.inl rfl⟩
  · rw [if_neg hic]
    rcases hp : inp.selectedPipeline with _ | p
    · exact ⟨rfl, Or.inl rfl⟩
    · dsimp only
      by_cases hg : jsTrim inp.inputMessage = [] ∨ inp.isVerified = false ∨
        inp.selectedModel = none
      · rw [if_pos hg]
        exact ⟨rfl, Or.inl rfl⟩
      · rw [if_neg hg]
        have hsup : isSupportedPipeline p = false := by
          rcases h with h | h | h
          · exact absurd (Or.inr (Or.inl h)) hg
          · exact absurd (Or.inr (Or.inr h)) hg
          · rw [hp] at h
            exact h
        rw [if_pos hsup]
        exact ⟨rfl, Or.inr ⟨_, rfl, rfl⟩⟩

/-- Witness for C2 at a concrete unverified submission. -/
theorem c2_dispatcher_guard_witness :
    ((DispatchInput.mk false none (some (str "translation")) (str "hi") false).isVerified = false ∨
      (DispatchInput.mk false none (some (str "translation")) (str "hi") false).selectedModel = none ∨
      pipelineSupported (DispatchInput.mk false none (some (str "translation")) (str "hi") false).selectedPipeline = false) ∧
    (handleSendMessage [] (DispatchInput.mk false none (some (str "translation")) (str "hi") false)).2 = [] ∧
    ((handleSendMessage [] (DispatchInput.mk false none (some (str "translation")) (str "hi") false)).1 = [] ∨
      ∃ e, (handleSendMessage [] (DispatchInput.mk false none (some (str "translation")) (str "hi") false)).1 = [e] ∧
        e.isUser = false) :=
  ⟨Or.inl rfl, c2_dispatcher_guard [] _ (Or.inl rfl)⟩

/-- C3: an error message containing "Subscribe to PRO" (or the other credit
signature "exceeded your monthly included credits") always produces the
credits-exceeded upgrade message — in the shared pipeline error path, in
the streaming error path, and in the image-classification error path — and
`handlePipelineError` writes that message into the placeholder entry. -/
theorem c3_credit_exhaustion (msgs : List Message) (m action : List Char) (i : Nat)
    (h : containsSub m (str "Subscribe to PRO") = true ∨
      containsSub m (str "exceeded your monthly included credits") = true) :
    pipelineErrorText m action = creditsExceededText ∧
    streamingErrorText m = creditsExceededText ∧
    imageClassifyErrorText m = creditsExceededText ∧
    ∀ e ∈ handlePipelineError msgs m i action, e.id = i → e.text = creditsExceededText := by
  have hc : isCreditLimitError m = true := by
    rcases h with h | h <;> simp [isCreditLimitError, h]
  refine ⟨by simp [pipelineErrorText, hc], by simp [streamingErrorText, hc],
    by simp [imageClassifyErrorText, hc], ?_⟩
  intro e he hid
  simp only [handlePipelineError, List.mem_map] at he
  obtain ⟨msg, _, hmsg⟩ := he
  by_cases hm : msg.id = i
  · rw [if_pos hm] at hmsg
    rw [← hmsg]
    simp [pipelineErrorText, hc]
  · rw [if_neg hm] at hmsg
    subst hmsg
    exact absurd hid hm

/-- Witness for C3 at a concrete credit-limit rejection. -/
theorem c3_credit_exhaustion_witness :
    containsSub (str "Payment required: Subscribe to PRO to continue") (str "Subscribe to PRO") = true ∧
    pipelineErrorText (str "Payment required: Subscribe to PRO to continue") (str "generating the image") =
      creditsExceededText :=
  ⟨by decide, (c3_credit_exhaustion [] _ _ 0 (Or.inl (by decide))).1⟩

/-- C4: on an input that begins with a front-matter block — opening
delimiter line `"---"`, a body `fm` that does not itself contain a line
starting with three dashes (no `"\n---"` occurrence), the closing delimiter
line `"---"`, then the remaining document `rest` (which does not itself
start with `"---"`) — the Extractor drops everything up to and including
the closing delimiter, and its entire output is computed from `rest` alone,
so no output field can contain the front-matter delimiter lines. -/
theorem c4_frontmatter_dropped (fm rest : List Char)
    (h1 : containsSub ('\n' :: fm) (str "\n---") = false)
    (h2 : strStarts (str "---") rest = false) :
    stripFrontmatter (str "---\n" ++ fm ++ str "\n---" ++ rest) = rest ∧
    parseModelCard (str "---\n" ++ fm ++ str "\n---" ++ rest) = parseModelCard rest := by
  have hs := frontmatter_stripped fm rest h1
  refine ⟨hs, ?_⟩
  unfold parseModelCard
  rw [hs]
  congr 1
  rw [stripFrontmatter, if_neg]
  simp [h2]

/-- Witness for C4 at a concrete front-matter block. -/
theorem c4_frontmatter_dropped_witness :
    containsSub ('\n' :: str "license: mit") (str "\n---") = false ∧
    strStarts (str "---") (str "Hello from the model card.") = false ∧
    stripFrontmatter (str "---\n" ++ str "license: mit" ++ str "\n---" ++
      str "Hello from the model card.") = str "Hello from the model card." ∧
    parseModelCard (str "---\n" ++ str "license: mit" ++ str "\n---" ++
      str "Hello from the model card.") = parseModelCard (str "Hello from the model card.") := by
  have h := c4_frontmatter_dropped (str "license: mit") (str "Hello from the model card.")
    (by decide) (by decide)
  exact ⟨by decide, by decide, h.1, h.2⟩

/-- C5: whenever the extracted description is non-empty, its length is at
least 50, or it is exactly the first at-most-1000 characters of the cleaned
fallback text built from the front-matter-stripped input. -/
theorem c5_description_fallback (md : List Char)
    (h : (parseModelCard md).fullDescription ≠ []) :
    50 ≤ (parseModelCard md).fullDescription.length ∨
    (parseModelCard md).fullDescription =
      (cleanDescriptionOf (stripFrontmatter md)).take 1000 := by
  simp only [parseModelCard, parseBody]
  split
  · exact Or.inr rfl
  · next hge => exact Or.inl (by omega)

/-- Witness for C5: a short card falls back to the cleaned text. -/
theorem c5_description_fallback_witness :
    (parseModelCard (str "Hi.")).fullDescription ≠ [] ∧
    (50 ≤ (parseModelCard (str "Hi.")).fullDescription.length ∨
      (parseModelCard (str "Hi.")).fullDescription =
        (cleanDescriptionOf (stripFrontmatter (str "Hi."))).take 1000) :=
  ⟨by decide, c5_description_fallback _ (by decide)⟩

/-- C6: an input with no Usage/How to Use/Examples heading leaves the usage
field unset, and on the spec's example input the usage field resolves to
"Do X." and the limitations field to "Y". -/
theorem c6_section_extraction (s : List Char)
    (h : findSection (stripFrontmatter s) usageKws = none) :
    (parseModelCard s).usage = none ∧
    (parseModelCard (str "## Usage\nDo X.\n## Limitations\nY")).usage = some (str "Do X.") ∧
    (parseModelCard (str "## Usage\nDo X.\n## Limitations\nY")).limitations = some (str "Y") := by
  refine ⟨?_, by decide, by decide⟩
  simp [parseModelCard, parseBody, extractSection, h]

/-- Witness for C6 at an input without any usage-like heading. -/
theorem c6_section_extraction_witness :
    findSection (stripFrontmatter (str "No headings here.")) usageKws = none ∧
    (parseModelCard (str "No headings here.")).usage = none :=
  ⟨by decide, (c6_section_extraction _ (by decide)).1⟩

/-- The listing response of the spec's grouping example. -/
def c7Listing : List RawModel :=
  [⟨str "a", none, some (str "text-generation")⟩,
   ⟨str "b", none, none⟩,
   ⟨str "c", none, some (str "text-generation")⟩]

/-- C7: for every listing response `ms` and every (non-empty) tag `t`, the
catalog group for `t` is exactly the response-order sublist of entries
whose `pipeline_tag` is `t` — so entries lacking a `pipeline_tag` are
dropped (they satisfy no tag's filter) and order is preserved; in
particular, on the listing `[{id:"a", pipeline_tag:"text-generation"},
{id:"b"}, {id:"c", pipeline_tag:"text-generation"}]` the group for
"text-generation" is exactly `["a", "c"]` in that order and the tag-less
model "b" appears in no group of the catalog. -/
theorem c7_listing_grouping (ms : List RawModel) (t : List Char)
    (ht : t.isEmpty = false) :
    lookupGroup (organizeModels ms) t =
      (ms.filter (fun m => decide (m.pipeline_tag = some t))).map
        (fun m => CatalogEntry.mk m.id (jsOrStr m.modelId m.id) m.pipeline_tag) ∧
    (lookupGroup (organizeModels c7Listing) (str "text-generation")).map CatalogEntry.id =
      [str "a", str "c"] ∧
    (organizeModels c7Listing).all
      (fun g => g.2.all (fun e => decide (e.id ≠ str "b"))) = true := by
  refine ⟨?_, by decide, by decide⟩
  have h := lookupGroup_foldl_organizeStep t ht ms []
  simpa [organizeModels, lookupGroup] using h

/-- Witness for C7 at the spec's listing and tag. -/
theorem c7_listing_grouping_witness :
    (str "text-generation").isEmpty = false ∧
    lookupGroup (organizeModels c7Listing) (str "text-generation") =
      (c7Listing.filter (fun m => decide (m.pipeline_tag = some (str "text-generation")))).map
        (fun m => CatalogEntry.mk m.id (jsOrStr m.modelId m.id) m.pipeline_tag) :=
  ⟨by decide, (c7_listing_grouping c7Listing (str "text-generation") (by decide)).1⟩

/-- C8: when verification has succeeded, changing the raw credential text
resets the verified flag and empties the model catalog, and the change
handler itself initiates no network call. -/
theorem c8_credential_reset (st : SidebarState) (v : List Char)
    (h : st.isApiVerified = true) :
    (handleApiKeyChange st v).1.isApiVerified = false ∧
    (handleApiKeyChange st v).1.pipelineModels = [] ∧
    (handleApiKeyChange st v).2 = [] := by
  simp [handleApiKeyChange, h]

/-- Witness for C8 at a concrete verified state. -/
theorem c8_credential_reset_witness :
    (SidebarState.mk (str "hf_key") true
      [(str "text-generation", [⟨str "gpt2", str "gpt2", some (str "text-generation")⟩])]
      (some (str "gpt2")) (str "gpt2")).isApiVerified = true ∧
    (handleApiKeyChange (SidebarState.mk (str "hf_key") true
      [(str "text-generation", [⟨str "gpt2", str "gpt2", some (str "text-generation")⟩])]
      (some (str "gpt2")) (str "gpt2")) (str "hf_other")).1.isApiVerified = false ∧
    (handleApiKeyChange (SidebarState.mk (str "hf_key") true
      [(str "text-generation", [⟨str "gpt2", str "gpt2", some (str "text-generation")⟩])]
      (some (str "gpt2")) (str "gpt2")) (str "hf_other")).1.pipelineModels = [] ∧
    (handleApiKeyChange (SidebarState.mk (str "hf_key") true
      [(str "text-generation", [⟨str "gpt2", str "gpt2", some (str "text-generation")⟩])]
      (some (str "gpt2")) (str "gpt2")) (str "hf_other")).2 = [] := by
  have h := c8_credential_reset (SidebarState.mk (str "hf_key") true
    [(str "text-generation", [⟨str "gpt2", str "gpt2", some (str "text-generation")⟩])]
    (some (str "gpt2")) (str "gpt2")) (str "hf_other") rfl
  exact ⟨rfl, h.1, h.2.1, h.2.2⟩

/-- C9: the extractor is a total deterministic function: equal inputs give
equal results, and on degenerate inputs (empty text, unterminated front
matter, malformed HTML) it still returns a result record, with the optional
fields unset and the description empty in the worst case. -/
theorem c9_extractor_total :
    (∀ s : List Char, parseModelCard s = parseModelCard s) ∧
    parseModelCard [] = ⟨[], none, none, none⟩ ∧
    parseModelCard (str "---\nlicense: mit") = ⟨str "license: mit", none, none, none⟩ ∧
    parseModelCard (str "<div>oops") = ⟨str "oops", none, none, none⟩ :=
  ⟨fun _ => rfl, by decide, by decide, by decide⟩

/-- C10: in the shared pipeline error path (used by the text-to-image,
text-classification, summarization and text-to-speech handlers), a
non-credit rejection whose message contains "speech" or "text-to-speech"
produces the text-to-speech template — "Text-to-speech error: " followed by
at most 100 characters of the message's first line — for every action
string, i.e. whichever handler dispatched, and `handlePipelineError` writes
it into the placeholder entry. -/
theorem c10_speech_error_routing (msgs : List Message) (m action : List Char) (i : Nat)
    (h1 : isCreditLimitError m = false)
    (h2 : containsSub m (str "text-to-speech") = true ∨ containsSub m (str "speech") = true) :
    pipelineErrorText m action = str "Text-to-speech error: " ++ truncate100 (jsFirstLine m) ∧
    strStarts (str "Text-to-speech error: ") (pipelineErrorText m action) = true ∧
    ((jsFirstLine m).take 100).length ≤ 100 ∧
    ∀ e ∈ handlePipelineError msgs m i action, e.id = i →
      e.text = str "Text-to-speech error: " ++ truncate100 (jsFirstLine m) := by
  have hsp : (containsSub m (str "text-to-speech") || containsSub m (str "speech")) = true := by
    rcases h2 with h | h <;> simp [h]
  have heq : pipelineErrorText m action =
      str "Text-to-speech error: " ++ truncate100 (jsFirstLine m) := by
    simp [pipelineErrorText, h1, hsp]
  refine ⟨heq, ?_, ?_, ?_⟩
  · rw [heq]
    exact strStarts_self_append _ _
  · exact List.length_take_le 100 (jsFirstLine m)
  · intro e he hid
    simp only [handlePipelineError, List.mem_map] at he
    obtain ⟨msg, _, hmsg⟩ := he
    by_cases hm : msg.id = i
    · rw [if_pos hm] at hmsg
      rw [← hmsg]
      exact heq
    · rw [if_neg hm] at hmsg
      subst hmsg
      exact absurd hid hm

/-- Witness for C10: a "speech" rejection routed through a non-speech
handler action ("analyzing the text", the text-classification action). -/
theorem c10_speech_error_routing_witness :
    isCreditLimitError (str "speech synthesis failed\nstack") = false ∧
    containsSub (str "speech synthesis failed\nstack") (str "speech") = true ∧
    pipelineErrorText (str "speech synthesis failed\nstack") (str "analyzing the text") =
      str "Text-to-speech error: " ++ truncate100 (jsFirstLine (str "speech synthesis failed\nstack")) :=
  ⟨by decide, by decide,
    (c10_speech_error_routing [] _ _ 0 (by decide) (Or.inr (by decide))).1⟩

end FirstSearchAI
